import Mathlib

/-!
Verification of the HW2 CRUD service: the generic SQL statement builder in
src/db.py and the student/employee route handlers in src/main.py.

Modelling conventions:
* A Python scalar value is `Value` (integers, strings, None).
* A Python dict is a `KV`, an association list in insertion order (Python
  dicts iterate in insertion order, and the handlers never shadow keys).
* A built statement (`Query` in db.py) is a pair of the templated string and
  the ordered argument list.
* Code that can raise at runtime returns `Except PyError _`.
* The database table backing a handler is a `List KV` of its rows; the
  execution layer applies the usual SQL semantics of the built statements
  (equality filters ANDed together, SET assignments, INSERT appends).
-/

/-- A Python scalar value as used by the service: JSON numbers (the handlers
only use integers), strings, and None/null. -/
inductive Value where
  | vInt : Int → Value
  | vStr : String → Value
  | vNull : Value
deriving DecidableEq, Repr

/-- Python truthiness of a `Value`: `0`, `""` and `None` are falsy. -/
def Value.truthy : Value → Bool
  | .vInt i => i != 0
  | .vStr s => s != ""
  | .vNull => false

/-- A Python dict (`KV = Dict[str, Any]` in db.py), kept in iteration
(insertion) order. -/
abbrev KV : Type := List (String × Value)

/-- A built statement (`Query = Tuple[str, List]` in db.py): the templated
query string and the list of placeholder arguments. -/
abbrev Query : Type := String × List Value

/-- Runtime errors of the embedded Python fragments. -/
inductive PyError where
  | nameError : String → PyError
  | typeError : String → PyError
  | valueError : String → PyError
deriving DecidableEq, Repr

/-- Python `sep.join(pieces)`: empty string on an empty list, otherwise the
pieces interleaved with the separator. -/
def joinSep (sep : String) : List String → String
  | [] => ""
  | [x] => x
  | x :: y :: ys => x ++ sep ++ joinSep sep (y :: ys)

/-- `dict.get(k)`: the value stored under `k`, or None when absent. -/
def pyGet (body : KV) (k : String) : Value :=
  match body.find? (fun p => p.1 == k) with
  | some p => p.2
  | none => Value.vNull

/-- `dict.get(k, d)`: the value stored under `k`, or the default `d`. -/
def pyGetD (body : KV) (k : String) (d : Value) : Value :=
  match body.find? (fun p => p.1 == k) with
  | some p => p.2
  | none => d

/-- Python `int(x)` on the values the handlers pass to it: identity on
integers, decimal parsing on strings (ValueError when unparsable),
TypeError on None. -/
def pyInt : Value → Except PyError Int
  | .vInt i => Except.ok i
  | .vStr s =>
    match s.toInt? with
    | some i => Except.ok i
    | none => Except.error (PyError.valueError s)
  | .vNull => Except.error (PyError.typeError "int() argument must be a string or a number, not NoneType")

/-- The WHERE clause shared by db.py lines 60, 113 and 137:
`"" if not filters else " WHERE " + " AND ".join([f"{k} = %s" for k in filters.keys()])`. -/
def where_clause (filters : KV) : String :=
  if filters = ([] : KV) then ""
  else " WHERE " ++ joinSep " AND " (filters.map (fun p => p.1 ++ " = %s"))

/-- db.py:49 `DB.build_select_query(table, columns, filters)` as written.
Its first statement (line 59, `attrib_clause = "*" if not rows else
", ".join(map(str, rows))`) evaluates the name `rows`, which is bound
nowhere — the parameter is named `columns`, and db.py has no module-level
`rows` — so every call raises `NameError: name 'rows' is not defined`
before anything is built. -/
def build_select_query (_table : String) (_columns : List String) (_filters : KV) :
    Except PyError Query :=
  Except.error (PyError.nameError "rows")

/-- The evident intent of `DB.build_select_query` per its signature and
docstring (db.py:50-57: `:param columns: The attributes to select. If empty,
then selects all columns.`): the body of lines 59-62 with the undefined name
`rows` replaced by the parameter `columns`. -/
def build_select_query_intended (table : String) (columns : List String) (filters : KV) :
    Query :=
  let attrib_clause := if columns = ([] : List String) then "*" else joinSep ", " columns
  ("SELECT " ++ attrib_clause ++ " FROM " ++ table ++ where_clause filters,
   filters.map (fun p => p.2))

/-- db.py:78 `DB.build_insert_query(table, values)`, translated line by line
from lines 86-90. -/
def build_insert_query (table : String) (values : KV) : Query :=
  let attrib_clause := " (" ++ joinSep ", " (values.map (fun p => p.1)) ++ ")"
  let args := values.map (fun p => p.2)
  let placeholder := List.replicate args.length "%s"
  let values_clause := " VALUES (" ++ joinSep ", " placeholder ++ ")"
  ("INSERT INTO " ++ table ++ attrib_clause ++ values_clause, args)

/-- db.py:103 `DB.build_update_query(table, values, filters)`, translated
line by line from lines 112-115. -/
def build_update_query (table : String) (values : KV) (filters : KV) : Query :=
  let set_clause := "SET " ++ joinSep ", " (values.map (fun p => p.1 ++ " = %s"))
  let args := (values.map (fun p => p.2)) ++ (filters.map (fun p => p.2))
  ("UPDATE " ++ table ++ " " ++ set_clause ++ where_clause filters, args)

/-- db.py:129 `DB.build_delete_query(table, filters)`, translated line by
line from lines 137-139. -/
def build_delete_query (table : String) (filters : KV) : Query :=
  ("DELETE FROM " ++ table ++ where_clause filters, filters.map (fun p => p.2))

/-- Number of `%s` placeholder markers in a statement string: occurrences of
the two-character pattern `%s`, scanned left to right (as the execution
layer of pymysql does when binding arguments). -/
def phCountAux : List Char → Nat
  | [] => 0
  | [_] => 0
  | a :: b :: rest =>
    if a = '%' ∧ b = 's' then phCountAux rest + 1 else phCountAux (b :: rest)

/-- Placeholder count of a statement string. -/
def phCount (s : String) : Nat := phCountAux s.data

/-- A string free of the `%` marker character (identifiers are trusted
inputs per the design, so table and column names are of this form). -/
def cleanStr (s : String) : Prop := ∀ c ∈ s.data, c ≠ '%'

/-- All keys of a map are `%`-free identifiers. -/
def cleanKeys (kv : KV) : Prop := ∀ p ∈ kv, cleanStr p.1

instance (s : String) : Decidable (cleanStr s) := by
  unfold cleanStr; infer_instance

instance (kv : KV) : Decidable (cleanKeys kv) := by
  unfold cleanKeys; infer_instance

/-- The value stored in column `k` of a row, if any. -/
def rowGet (r : KV) (k : String) : Option Value :=
  match r.find? (fun p => p.1 == k) with
  | some p => some p.2
  | none => none

/-- A row satisfies every equality filter: the semantics of the ANDed
`k = %s` predicates of a built WHERE clause, as executed by the database. -/
def rowMatches (r : KV) (filters : KV) : Bool :=
  filters.all (fun p => decide (rowGet r p.1 = some p.2))

/-- SQL column projection of a SELECT: an empty column list selects all
columns (`SELECT *`), otherwise the listed columns in the given order. -/
def projectRow (columns : List String) (r : KV) : KV :=
  if columns = ([] : List String) then r
  else columns.filterMap (fun c => (rowGet r c).map (fun v => (c, v)))

/-- `UPDATE ... SET` semantics on one row: each assignment overwrites the
named column; columns absent from the row are added. -/
def updateRow (r upd : KV) : KV :=
  (r.map (fun p =>
    match rowGet upd p.1 with
    | some v => (p.1, v)
    | none => p))
  ++ upd.filter (fun q => (rowGet r q.1).isNone)

/-- db.py:65 `DB.select(table, columns, filters)` as written. Line 73 reads
`query, args = self.build_select_query(table, rows, filters)`: the name
`rows` is bound nowhere in the method (the parameter is named `columns`),
so every call raises `NameError: name 'rows' is not defined`. The state
argument (the rows of the referenced table) is never reached. -/
def DB.select (_st : List KV) (_table : String) (_columns : List String) (_filters : KV) :
    Except PyError (List KV) :=
  Except.error (PyError.nameError "rows")

/-- Intended semantics of `DB.select` per its docstring (db.py:66-71): run
the intended SELECT, i.e. return the rows of the referenced table that
satisfy all equality filters, projected to the requested columns. The
state argument is the list of rows of the table named in the source call. -/
def DB.select_intended (st : List KV) (columns : List String) (filters : KV) : List KV :=
  (st.filter (fun r => rowMatches r filters)).map (projectRow columns)

/-- Python keyword-argument discipline: a call raises TypeError when a
keyword is not among the parameter names of the callee. -/
def kwargsAccepted (params kwargs : List String) : Bool :=
  kwargs.all (fun k => params.contains k)

/-- The parameter names of `DB.select` (db.py:65), after `self`. -/
def selectParamNames : List String := ["table", "columns", "filters"]

/-- A JSON response payload: a message string, a single row object, or an
array of row objects. -/
inductive Payload where
  | msg : String → Payload
  | obj : KV → Payload
  | arr : List KV → Payload
deriving DecidableEq, Repr

/-- An HTTP response: the JSONResponse content and the status code. -/
structure Response where
  content : Payload
  status : Nat
deriving DecidableEq, Repr

/-- main.py:91 `get_student(student_id)` as written. Line 106 calls
`db.select("student", rows=[], filters={"student_id": student_id})` with
the keyword `rows`, which is not a parameter of `DB.select` (db.py:65
declares `table, columns, filters`), so the call raises TypeError before
`select` runs; lines 107-110 are modelled under the guard and are
unreachable. -/
def get_student (st : List KV) (student_id : Int) : Except PyError Response :=
  if kwargsAccepted selectParamNames ["rows", "filters"] then do
    let result ← DB.select st "student" [] [("student_id", Value.vInt student_id)]
    match result with
    | r :: _ => pure ⟨Payload.obj r, 200⟩
    | [] => pure ⟨Payload.msg "Student record not found!", 404⟩
  else
    Except.error (PyError.typeError "select() got an unexpected keyword argument rows")

/-- Intended `get_student` per its docstring (main.py:93-105): run the
existence select (with the working keyword `columns`); a found student is
returned as a single row object (`result[0]`, not a list) with 200,
otherwise 404 with the line-110 message. -/
def get_student_intended (st : List KV) (student_id : Int) : Response :=
  match DB.select_intended st [] [("student_id", Value.vInt student_id)] with
  | r :: _ => ⟨Payload.obj r, 200⟩
  | [] => ⟨Payload.msg "Student record not found!", 404⟩

/-- main.py:113 `post_student(req)` as written (lines 140-150), over the
body `json_data` and the student table rows `st`. `email_check` (line 143)
short-circuits on a falsy email; with a truthy email it calls `db.select`,
which raises NameError (db.py:73). `year_check` (line 144) may raise
ValueError through `int(year)`. The insert path executes
`build_insert_query` and appends the row (INSERT semantics). -/
def post_student (st : List KV) (body : KV) : Except PyError (Response × List KV) := do
  let email := pyGet body "email"
  let year := pyGet body "enrollment_year"
  let email_check ←
    if !email.truthy then pure true
    else do
      let r ← DB.select st "student" [] [("email", email)]
      pure (decide (r ≠ []))
  let year_check ←
    if !year.truthy then pure true
    else do
      let n ← pyInt year
      pure (!(decide (2016 ≤ n) && decide (n ≤ 2023)))
  if email_check || year_check then
    pure (⟨Payload.msg "Invalid input! Please ensure email is included and unique, enrollment year is b/w 2016-2023", 400⟩, st)
  else
    pure (⟨Payload.msg "Successfully inserted record!", 201⟩, st ++ [body])

/-- Intended `post_student` (main.py:130-136 docstring): line 143-150 with
the duplicate-email select evaluated by the intended (working) select. -/
def post_student_intended (st : List KV) (body : KV) :
    Except PyError (Response × List KV) := do
  let email := pyGet body "email"
  let year := pyGet body "enrollment_year"
  let email_check :=
    !email.truthy || decide (DB.select_intended st [] [("email", email)] ≠ [])
  let year_check ←
    if !year.truthy then pure true
    else do
      let n ← pyInt year
      pure (!(decide (2016 ≤ n) && decide (n ≤ 2023)))
  if email_check || year_check then
    pure (⟨Payload.msg "Invalid input! Please ensure email is included and unique, enrollment year is b/w 2016-2023", 400⟩, st)
  else
    pure (⟨Payload.msg "Successfully inserted record!", 201⟩, st ++ [body])

/-- The email validation of both PUT handlers (main.py:183 and main.py:348):
`email_check = email != "empty" and (not email or db.select(...))` with
`email = json_data.get("email", "empty")`, evaluated against the intended
(working) select over the rows of the referenced table. -/
def put_email_check (st : List KV) (body : KV) : Bool :=
  let email := pyGetD body "email" (Value.vStr "empty")
  decide (email ≠ Value.vStr "empty")
    && (!email.truthy || decide (DB.select_intended st [] [("email", email)] ≠ []))

/-- The employee_type validation of the employee handlers (main.py:308 and
main.py:349): `not job or job not in ["Professor", "Lecturer", "Staff"]`. -/
def job_check (job : Value) : Bool :=
  !job.truthy
    || decide (job ∉ [Value.vStr "Professor", Value.vStr "Lecturer", Value.vStr "Staff"])

/-- main.py:153 `put_student(student_id, req)` as written (lines 180-193).
Evaluation order follows the source: `email_check` (line 183, raises
NameError through `db.select` unless the email is the default `"empty"` or
falsy), `year_check` (line 184, may raise ValueError), then the existence
select of line 185, which always raises NameError when reached. -/
def put_student (st : List KV) (student_id : Int) (body : KV) :
    Except PyError (Response × List KV) := do
  let email := pyGetD body "email" (Value.vStr "empty")
  let year := pyGet body "enrollment_year"
  let email_check ←
    if email = Value.vStr "empty" then pure false
    else if !email.truthy then pure true
    else do
      let r ← DB.select st "student" [] [("email", email)]
      pure (decide (r ≠ []))
  let year_check ←
    if !year.truthy then pure true
    else do
      let n ← pyInt year
      pure (!(decide (2016 ≤ n) && decide (n ≤ 2023)))
  let found ← DB.select st "student" [] [("student_id", Value.vInt student_id)]
  if found = [] then
    pure (⟨Payload.msg "Student Record not found!", 404⟩, st)
  else if email_check || year_check then
    pure (⟨Payload.msg "Invalid input! Please ensure email is included and unique, enrollment year is b/w 2016-2023", 400⟩, st)
  else
    pure (⟨Payload.msg "Successfully updated record!", 200⟩,
      st.map (fun r =>
        if rowMatches r [("student_id", Value.vInt student_id)] then updateRow r body else r))

/-- Intended `put_student` (main.py:168-176 docstring): lines 180-193 with
both selects evaluated by the intended (working) select; the update applies
the body assignments to the rows matching the student_id filter, as built
by `build_update_query`. -/
def put_student_intended (st : List KV) (student_id : Int) (body : KV) :
    Except PyError (Response × List KV) := do
  let year := pyGet body "enrollment_year"
  let email_check := put_email_check st body
  let year_check ←
    if !year.truthy then pure true
    else do
      let n ← pyInt year
      pure (!(decide (2016 ≤ n) && decide (n ≤ 2023)))
  if DB.select_intended st [] [("student_id", Value.vInt student_id)] = [] then
    pure (⟨Payload.msg "Student Record not found!", 404⟩, st)
  else if email_check || year_check then
    pure (⟨Payload.msg "Invalid input! Please ensure email is included and unique, enrollment year is b/w 2016-2023", 400⟩, st)
  else
    pure (⟨Payload.msg "Successfully updated record!", 200⟩,
      st.map (fun r =>
        if rowMatches r [("student_id", Value.vInt student_id)] then updateRow r body else r))

/-- main.py:196 `delete_student(student_id)` as written (lines 210-214):
the existence select of line 210 always raises NameError (db.py:73), so
neither branch is reached. The delete branch removes the matching rows
(DELETE semantics of the statement built by `build_delete_query`). -/
def delete_student (st : List KV) (student_id : Int) :
    Except PyError (Response × List KV) := do
  let found ← DB.select st "student" [] [("student_id", Value.vInt student_id)]
  if found = [] then
    pure (⟨Payload.msg "Student Record not found!", 404⟩, st)
  else
    pure (⟨Payload.msg "Successfully deleted record!", 200⟩,
      st.filter (fun r => !rowMatches r [("student_id", Value.vInt student_id)]))

/-- Intended `delete_student` (main.py:204-208 docstring): existence check
first; only when it returns a non-empty result is the DELETE built and
executed. The third component lists the statements executed, in order. -/
def delete_student_intended (st : List KV) (student_id : Int) :
    Response × List KV × List Query :=
  let fil : KV := [("student_id", Value.vInt student_id)]
  let selQ := build_select_query_intended "student" [] fil
  if DB.select_intended st [] fil = [] then
    (⟨Payload.msg "Student Record not found!", 404⟩, st, [selQ])
  else
    (⟨Payload.msg "Successfully deleted record!", 200⟩,
     st.filter (fun r => !rowMatches r fil),
     [selQ, build_delete_query "student" fil])

/-- main.py:318 `put_employee(employee_id, req)` as written (lines
344-359), mirroring `put_student` with `job_check` in place of
`year_check`. -/
def put_employee (st : List KV) (employee_id : Int) (body : KV) :
    Except PyError (Response × List KV) := do
  let email := pyGetD body "email" (Value.vStr "empty")
  let job := pyGet body "employee_type"
  let email_check ←
    if email = Value.vStr "empty" then pure false
    else if !email.truthy then pure true
    else do
      let r ← DB.select st "employee" [] [("email", email)]
      pure (decide (r ≠ []))
  let jc := job_check job
  let found ← DB.select st "employee" [] [("employee_id", Value.vInt employee_id)]
  if found = [] then
    pure (⟨Payload.msg "Employee Record not found!", 404⟩, st)
  else if email_check || jc then
    pure (⟨Payload.msg "Invalid input! Please ensure email is included and unique, employee_type is one of Professor / Lecturer / Staff", 400⟩, st)
  else
    pure (⟨Payload.msg "Successfully updated record!", 200⟩,
      st.map (fun r =>
        if rowMatches r [("employee_id", Value.vInt employee_id)] then updateRow r body else r))

/-- Intended `put_employee` (main.py:333-341 docstring): lines 344-359 with
both selects evaluated by the intended (working) select. -/
def put_employee_intended (st : List KV) (employee_id : Int) (body : KV) :
    Response × List KV :=
  let email_check := put_email_check st body
  let jc := job_check (pyGet body "employee_type")
  if DB.select_intended st [] [("employee_id", Value.vInt employee_id)] = [] then
    (⟨Payload.msg "Employee Record not found!", 404⟩, st)
  else if email_check || jc then
    (⟨Payload.msg "Invalid input! Please ensure email is included and unique, employee_type is one of Professor / Lecturer / Staff", 400⟩, st)
  else
    (⟨Payload.msg "Successfully updated record!", 200⟩,
      st.map (fun r =>
        if rowMatches r [("employee_id", Value.vInt employee_id)] then updateRow r body else r))

/-- main.py:362 `delete_employee(employee_id)` as written (lines 376-380):
the existence select of line 376 always raises NameError (db.py:73). -/
def delete_employee (st : List KV) (employee_id : Int) :
    Except PyError (Response × List KV) := do
  let found ← DB.select st "employee" [] [("employee_id", Value.vInt employee_id)]
  if found = [] then
    pure (⟨Payload.msg "Employee Record not found!", 404⟩, st)
  else
    pure (⟨Payload.msg "Successfully deleted record!", 200⟩,
      st.filter (fun r => !rowMatches r [("employee_id", Value.vInt employee_id)]))

/-- Intended `delete_employee` (main.py:370-374 docstring): existence check
first; only on a non-empty result is the DELETE built and executed. The
third component lists the statements executed, in order. -/
def delete_employee_intended (st : List KV) (employee_id : Int) :
    Response × List KV × List Query :=
  let fil : KV := [("employee_id", Value.vInt employee_id)]
  let selQ := build_select_query_intended "employee" [] fil
  if DB.select_intended st [] fil = [] then
    (⟨Payload.msg "Employee Record not found!", 404⟩, st, [selQ])
  else
    (⟨Payload.msg "Successfully deleted record!", 200⟩,
     st.filter (fun r => !rowMatches r fil),
     [selQ, build_delete_query "employee" fil])

theorem phAux_cons_ne (a : Char) (l : List Char) (h : a ≠ '%') :
    phCountAux (a :: l) = phCountAux l := by
  cases l with
  | nil => rfl
  | cons b t => simp [phCountAux, h]

theorem phAux_ph (l : List Char) : phCountAux ('%' :: 's' :: l) = phCountAux l + 1 := by
  simp [phCountAux]

theorem phAux_clean_append (l1 l2 : List Char) (h : ∀ c ∈ l1, c ≠ '%') :
    phCountAux (l1 ++ l2) = phCountAux l2 := by
  induction l1 with
  | nil => rfl
  | cons a t ih =>
    rw [List.cons_append, phAux_cons_ne _ _ (h a (by simp))]
    exact ih (fun c hc => h c (by simp [hc]))

theorem phAux_eq_piece (l : List Char) :
    phCountAux (' ' :: '=' :: ' ' :: '%' :: 's' :: l) = phCountAux l + 1 := by
  rw [phAux_cons_ne _ _ (by decide), phAux_cons_ne _ _ (by decide),
      phAux_cons_ne _ _ (by decide), phAux_ph]

theorem joinSep_clean (sep : String) (l : List String)
    (hsep : ∀ c ∈ sep.data, c ≠ '%') (hl : ∀ x ∈ l, ∀ c ∈ x.data, c ≠ '%') :
    ∀ c ∈ (joinSep sep l).data, c ≠ '%' := by
  induction l with
  | nil => simp [joinSep]
  | cons x xs ih =>
    cases xs with
    | nil => simpa [joinSep] using hl x (by simp)
    | cons y ys =>
      simp only [joinSep, String.data_append, List.mem_append]
      intro c hc
      rcases hc with (hc | hc) | hc
      · exact hl x (by simp) c hc
      · exact hsep c hc
      · exact ih (fun z hz => hl z (by simp [hz])) c hc

theorem phAux_predsJoin (sep : String) (hsep : ∀ c ∈ sep.data, c ≠ '%')
    (fs : KV) (hk : cleanKeys fs) (rest : List Char) :
    phCountAux ((joinSep sep (fs.map (fun p => p.1 ++ " = %s"))).data ++ rest)
      = fs.length + phCountAux rest := by
  induction fs with
  | nil => simp [joinSep]
  | cons p ps ih =>
    cases ps with
    | nil =>
      simp only [List.map, joinSep, String.data_append, List.append_assoc]
      rw [phAux_clean_append _ _ (hk p (by simp))]
      simp only [List.cons_append, List.nil_append]
      rw [phAux_eq_piece]
      simp only [List.length_cons, List.length_nil]
      omega
    | cons q qs =>
      simp only [List.map, joinSep, String.data_append, List.append_assoc]
      rw [phAux_clean_append _ _ (hk p (by simp))]
      simp only [List.cons_append, List.nil_append]
      rw [phAux_eq_piece, phAux_clean_append _ _ hsep]
      have ihq := ih (fun z hz => hk z (by simp; right; simpa using hz))
      simp only [List.map] at ihq
      rw [ihq]
      simp only [List.length_cons]
      omega

theorem phAux_qmarksJoin (n : Nat) (rest : List Char) :
    phCountAux ((joinSep ", " (List.replicate n "%s")).data ++ rest)
      = n + phCountAux rest := by
  induction n with
  | zero => simp [joinSep]
  | succ m ih =>
    cases m with
    | zero =>
      have hd : ("%s").data = ['%', 's'] := rfl
      simp only [List.replicate, joinSep, hd, List.cons_append, List.nil_append]
      rw [phAux_ph]
      omega
    | succ k =>
      have hrep : List.replicate (k + 2) "%s" = "%s" :: "%s" :: List.replicate k "%s" := by
        simp [List.replicate_succ]
      rw [hrep]
      have hrep2 : List.replicate (k + 1) "%s" = "%s" :: List.replicate k "%s" := by
        simp [List.replicate_succ]
      simp only [joinSep, String.data_append, List.append_assoc]
      simp only [List.cons_append, List.nil_append]
      rw [phAux_ph, phAux_cons_ne _ _ (by decide), phAux_cons_ne _ _ (by decide)]
      rw [hrep2] at ih
      rw [ih]
      omega

theorem phCount_where (filters : KV) (hk : cleanKeys filters) (rest : List Char) :
    phCountAux ((where_clause filters).data ++ rest)
      = filters.length + phCountAux rest := by
  unfold where_clause
  split
  next hemp =>
    subst hemp
    simp [phCountAux]
  next hne =>
    rw [String.data_append, List.append_assoc, phAux_clean_append _ _ (by decide)]
    exact phAux_predsJoin " AND " (by decide) filters hk rest

theorem phCount_delete_eq (t : String) (filters : KV)
    (ht : cleanStr t) (hk : cleanKeys filters) :
    phCount (build_delete_query t filters).1 = filters.length := by
  simp only [build_delete_query, phCount, String.data_append, List.append_assoc]
  rw [phAux_clean_append _ _ (by decide), phAux_clean_append _ _ ht]
  have h := phCount_where filters hk []
  rw [List.append_nil] at h
  rw [h]
  simp [phCountAux]

theorem phCount_update_eq (t : String) (values filters : KV)
    (ht : cleanStr t) (hv : cleanKeys values) (hf : cleanKeys filters) :
    phCount (build_update_query t values filters).1
      = values.length + filters.length := by
  simp only [build_update_query, phCount, String.data_append, List.append_assoc]
  rw [phAux_clean_append _ _ (by decide), phAux_clean_append _ _ ht,
      phAux_clean_append _ _ (by decide), phAux_clean_append _ _ (by decide)]
  rw [phAux_predsJoin ", " (by decide) values hv]
  have h := phCount_where filters hf []
  rw [List.append_nil] at h
  rw [h]
  simp [phCountAux]

theorem phCount_insert_eq (t : String) (values : KV)
    (ht : cleanStr t) (hv : cleanKeys values) :
    phCount (build_insert_query t values).1 = values.length := by
  simp only [build_insert_query, phCount, String.data_append, List.append_assoc]
  rw [phAux_clean_append _ _ (by decide), phAux_clean_append _ _ ht,
      phAux_clean_append _ _ (by decide)]
  have hkeys : ∀ x ∈ values.map (fun p => p.1), ∀ c ∈ x.data, c ≠ '%' := by
    intro x hx
    obtain ⟨p, hp, rfl⟩ := List.mem_map.mp hx
    exact hv p hp
  rw [phAux_clean_append _ _ (joinSep_clean ", " _ (by decide) hkeys),
      phAux_clean_append _ _ (by decide), phAux_clean_append _ _ (by decide)]
  have h := phAux_qmarksJoin (values.map (fun p => p.2)).length [')']
  rw [h]
  have h0 : phCountAux [')'] = 0 := rfl
  rw [h0]
  simp

theorem select_query_always_errors (t : String) (c : List String) (f : KV) :
    build_select_query t c f = Except.error (PyError.nameError "rows") := rfl

/-- C1: the claim states that BuildSelect(t, [], F) returns SELECT * FROM t
with, for non-empty F, a WHERE clause of exactly one ANDed equality
predicate per key of F in iteration order, the argument list being the
values of F in the same order; and no WHERE clause and no arguments for
empty F. On the code the call raises NameError on every input, because
db.py:59 evaluates the undefined name rows; the builder read off the
docstring intent satisfies the claimed shape. -/
theorem C1_build_select_star :
    (∀ (t : String) (F : KV),
        build_select_query t [] F = Except.error (PyError.nameError "rows"))
  ∧ (∀ (t : String) (F : KV),
        build_select_query_intended t [] F
          = ("SELECT * FROM " ++ t ++ where_clause F, F.map (fun p => p.2)))
  ∧ where_clause [] = ""
  ∧ (∀ (p : String × Value) (ps : KV),
        where_clause (p :: ps)
          = " WHERE " ++ joinSep " AND " ((p :: ps).map (fun q => q.1 ++ " = %s"))) := by
  refine ⟨fun t F => rfl, fun t F => rfl, rfl, fun p ps => ?_⟩
  simp [where_clause]

/-- C2: the claim states that BuildSelect never raises, for every table
name, column list (including non-empty ones) and filter map. In the code
every call raises NameError: name rows is not defined (db.py:59). -/
theorem C2_build_select_total :
    ∀ (t : String) (c : List String) (F : KV),
      build_select_query t c F = Except.error (PyError.nameError "rows") :=
  fun t c F => select_query_always_errors t c F

/-- C4: across the four builders, placeholder count equals argument count
and argument order is values then filters. BuildSelect returns no
statement at all (NameError on every input); for the three builders that
do return, the invariant holds whenever the trusted identifiers are free
of the marker character, and the argument lists are exactly the value-map
values followed by the filter-map values in iteration order. -/
theorem C4_placeholder_argument_invariant :
    (∀ (t : String) (c : List String) (f : KV),
        build_select_query t c f = Except.error (PyError.nameError "rows"))
  ∧ (∀ (t : String) (values : KV), cleanStr t → cleanKeys values →
        phCount (build_insert_query t values).1
          = (build_insert_query t values).2.length)
  ∧ (∀ (t : String) (values filters : KV),
        cleanStr t → cleanKeys values → cleanKeys filters →
        phCount (build_update_query t values filters).1
          = (build_update_query t values filters).2.length)
  ∧ (∀ (t : String) (filters : KV), cleanStr t → cleanKeys filters →
        phCount (build_delete_query t filters).1
          = (build_delete_query t filters).2.length)
  ∧ (∀ (t : String) (values : KV),
        (build_insert_query t values).2 = values.map (fun p => p.2))
  ∧ (∀ (t : String) (values filters : KV),
        (build_update_query t values filters).2
          = (values.map (fun p => p.2)) ++ (filters.map (fun p => p.2)))
  ∧ (∀ (t : String) (filters : KV),
        (build_delete_query t filters).2 = filters.map (fun p => p.2)) := by
  refine ⟨fun _ _ _ => rfl, ?_, ?_, ?_, fun _ _ => rfl, fun _ _ _ => rfl, fun _ _ => rfl⟩
  · intro t values ht hv
    rw [phCount_insert_eq t values ht hv]
    simp [build_insert_query]
  · intro t values filters ht hv hf
    rw [phCount_update_eq t values filters ht hv hf]
    simp [build_update_query]
  · intro t filters ht hf
    rw [phCount_delete_eq t filters ht hf]
    simp [build_delete_query]

/-- C4 witness: the hypotheses of the invariant discharged at concrete
identifier-clean inputs. -/
theorem C4_placeholder_argument_invariant_witness :
    phCount (build_insert_query "student"
        [("first_name", Value.vStr "John"), ("email", Value.vStr "jd@columbia.edu")]).1
      = (build_insert_query "student"
        [("first_name", Value.vStr "John"), ("email", Value.vStr "jd@columbia.edu")]).2.length
  ∧ phCount (build_update_query "student"
        [("first_name", Value.vStr "Joe")] [("student_id", Value.vInt 1)]).1
      = (build_update_query "student"
        [("first_name", Value.vStr "Joe")] [("student_id", Value.vInt 1)]).2.length
  ∧ phCount (build_delete_query "student" [("student_id", Value.vInt 1)]).1
      = (build_delete_query "student" [("student_id", Value.vInt 1)]).2.length :=
  ⟨C4_placeholder_argument_invariant.2.1 "student" _ (by decide) (by decide),
   C4_placeholder_argument_invariant.2.2.1 "student" _ _ (by decide) (by decide) (by decide),
   C4_placeholder_argument_invariant.2.2.2.1 "student" _ (by decide) (by decide)⟩

/-- C5 counterexample: BuildUpdate("t", a to 1, id to 5) does not produce
the claimed statement with ? markers; the builder emits %s placeholders. -/
theorem C5_question_mark_counterexample :
    build_update_query "t" [("a", Value.vInt 1)] [("id", Value.vInt 5)]
      ≠ ("UPDATE t SET a = ? WHERE id = ?", [Value.vInt 1, Value.vInt 5]) := by
  decide

/-- C5 (amended): BuildUpdate("t", a to 1, id to 5) yields
UPDATE t SET a = %s WHERE id = %s with arguments [1, 5] (the %s marker of
the execution layer, not ?); in general the argument list is the value-map
values in key order followed by the filter-map values in filter order. -/
theorem C5_update_statement :
    build_update_query "t" [("a", Value.vInt 1)] [("id", Value.vInt 5)]
      = ("UPDATE t SET a = %s WHERE id = %s", [Value.vInt 1, Value.vInt 5])
  ∧ (∀ (t : String) (values filters : KV),
      (build_update_query t values filters).2
        = (values.map (fun p => p.2)) ++ (filters.map (fun p => p.2))) :=
  ⟨by decide, fun t values filters => rfl⟩

/-- C6: BuildDelete(t, empty filter map) yields DELETE FROM t with no WHERE
clause and an empty argument list, for every table name, with no guard in
the builder. -/
theorem C6_delete_empty_filters :
    ∀ t : String, build_delete_query t [] = ("DELETE FROM " ++ t, []) := by
  intro t
  simp [build_delete_query, where_clause]

/-- C7 counterexample: BuildInsert("t", a to 1 and b to 2) does not produce
the claimed statement with ? markers; the builder emits %s placeholders. -/
theorem C7_question_mark_counterexample :
    build_insert_query "t" [("a", Value.vInt 1), ("b", Value.vInt 2)]
      ≠ ("INSERT INTO t (a, b) VALUES (?, ?)", [Value.vInt 1, Value.vInt 2]) := by
  decide

/-- C7 (amended): BuildInsert("t", a to 1 and b to 2) yields
INSERT INTO t (a, b) VALUES (%s, %s) with arguments [1, 2] (%s markers,
not ?); in general the column list is the value-map keys in iteration
order, the placeholder list has one %s per key, and the arguments are the
values in the same order. -/
theorem C7_insert_statement :
    build_insert_query "t" [("a", Value.vInt 1), ("b", Value.vInt 2)]
      = ("INSERT INTO t (a, b) VALUES (%s, %s)", [Value.vInt 1, Value.vInt 2])
  ∧ (∀ (t : String) (values : KV),
      build_insert_query t values
        = ("INSERT INTO " ++ t ++ " (" ++ joinSep ", " (values.map (fun p => p.1))
            ++ ") VALUES (" ++ joinSep ", " (List.replicate values.length "%s") ++ ")",
           values.map (fun p => p.2))) := by
  constructor
  · decide
  · intro t values
    simp only [build_insert_query, List.length_map, Prod.mk.injEq]
    refine ⟨?_, trivial⟩
    have hext : ∀ a b : String, a.data = b.data → a = b := by
      intro a b h
      cases a
      cases b
      exact congrArg String.mk h
    apply hext
    simp [String.data_append, List.append_assoc]

/-- C3: POST /students is claimed to respond 400 exactly on a missing or
duplicate email or an enrollment year outside 2016-2023, and otherwise to
insert the body and respond 201. On the code, any request with a present
(truthy) email raises NameError through the duplicate-email select
(db.py:73) before any insert can happen, so a valid body is never inserted;
the intended handler inserts it with 201, and rejects a missing email, a
duplicate email and an out-of-range year with 400, leaving the table
unchanged. -/
theorem C3_post_student :
    post_student []
        [("email", Value.vStr "jd@columbia.edu"), ("enrollment_year", Value.vInt 2020)]
      = Except.error (PyError.nameError "rows")
  ∧ post_student_intended []
        [("email", Value.vStr "jd@columbia.edu"), ("enrollment_year", Value.vInt 2020)]
      = Except.ok (⟨Payload.msg "Successfully inserted record!", 201⟩,
          [[("email", Value.vStr "jd@columbia.edu"), ("enrollment_year", Value.vInt 2020)]])
  ∧ post_student_intended [] [("enrollment_year", Value.vInt 2020)]
      = Except.ok (⟨Payload.msg "Invalid input! Please ensure email is included and unique, enrollment year is b/w 2016-2023", 400⟩, [])
  ∧ post_student_intended
        [[("email", Value.vStr "jd@columbia.edu"), ("enrollment_year", Value.vInt 2020)]]
        [("email", Value.vStr "jd@columbia.edu"), ("enrollment_year", Value.vInt 2021)]
      = Except.ok (⟨Payload.msg "Invalid input! Please ensure email is included and unique, enrollment year is b/w 2016-2023", 400⟩,
          [[("email", Value.vStr "jd@columbia.edu"), ("enrollment_year", Value.vInt 2020)]])
  ∧ post_student_intended []
        [("email", Value.vStr "new@columbia.edu"), ("enrollment_year", Value.vInt 2015)]
      = Except.ok (⟨Payload.msg "Invalid input! Please ensure email is included and unique, enrollment year is b/w 2016-2023", 400⟩, []) :=
  ⟨rfl, rfl, rfl, rfl, rfl⟩

/-- C8: GET /students/id is claimed to respond 200 with a single row object
when the student exists and 404 otherwise. On the code the handler raises
TypeError on every request and for every table state: main.py:106 passes
the keyword rows, which DB.select (db.py:65) does not accept. The intended
handler returns the found row as a single object (not a list) with 200,
and 404 when no row matches. -/
theorem C8_get_student :
    (∀ (st : List KV) (sid : Int),
        get_student st sid
          = Except.error (PyError.typeError "select() got an unexpected keyword argument rows"))
  ∧ get_student_intended
        [[("student_id", Value.vInt 1), ("email", Value.vStr "a@columbia.edu")]] 1
      = ⟨Payload.obj [("student_id", Value.vInt 1), ("email", Value.vStr "a@columbia.edu")], 200⟩
  ∧ get_student_intended [] 1 = ⟨Payload.msg "Student record not found!", 404⟩
  ∧ get_student_intended [[("student_id", Value.vInt 2)]] 1
      = ⟨Payload.msg "Student record not found!", 404⟩ :=
  ⟨fun _ _ => rfl, rfl, rfl, rfl⟩

/-- C9: in both PUT handlers a body whose email is the literal string
"empty" is treated, for validation, exactly like a body with no email key
(the handler passes "empty" as the get default), so the email
null/duplicate validation is skipped, and the literal "empty" is written
to the email column by the update. On the code the request never reaches
the update: the existence select raises NameError (db.py:73). The intended
handlers realize the claim: the shared email check is false whenever the
resolved email is "empty", and the update writes the literal string into
the stored row. -/
theorem C9_put_empty_email :
    put_student [[("student_id", Value.vInt 1), ("email", Value.vStr "old@columbia.edu")]] 1
        [("email", Value.vStr "empty"), ("enrollment_year", Value.vInt 2020)]
      = Except.error (PyError.nameError "rows")
  ∧ put_employee [[("employee_id", Value.vInt 1), ("email", Value.vStr "prof@columbia.edu")]] 1
        [("email", Value.vStr "empty"), ("employee_type", Value.vStr "Staff")]
      = Except.error (PyError.nameError "rows")
  ∧ (∀ (st : List KV) (body : KV),
        pyGetD body "email" (Value.vStr "empty") = Value.vStr "empty" →
        put_email_check st body = false)
  ∧ put_student_intended
        [[("student_id", Value.vInt 1), ("email", Value.vStr "old@columbia.edu")]] 1
        [("email", Value.vStr "empty"), ("enrollment_year", Value.vInt 2020)]
      = Except.ok (⟨Payload.msg "Successfully updated record!", 200⟩,
          [[("student_id", Value.vInt 1), ("email", Value.vStr "empty"),
            ("enrollment_year", Value.vInt 2020)]])
  ∧ put_employee_intended
        [[("employee_id", Value.vInt 1), ("email", Value.vStr "prof@columbia.edu")]] 1
        [("email", Value.vStr "empty"), ("employee_type", Value.vStr "Staff")]
      = (⟨Payload.msg "Successfully updated record!", 200⟩,
          [[("employee_id", Value.vInt 1), ("email", Value.vStr "empty"),
            ("employee_type", Value.vStr "Staff")]]) := by
  refine ⟨rfl, rfl, ?_, rfl, rfl⟩
  intro st body h
  simp [put_email_check, h]

/-- C9 witness: the validation-skip fact discharged at a body carrying the
literal "empty" and at a body with no email key at all. -/
theorem C9_put_empty_email_witness :
    put_email_check [] [("email", Value.vStr "empty")] = false
  ∧ put_email_check [] [("first_name", Value.vStr "Joe")] = false :=
  ⟨C9_put_empty_email.2.2.1 [] [("email", Value.vStr "empty")] rfl,
   C9_put_empty_email.2.2.1 [] [("first_name", Value.vStr "Joe")] rfl⟩

/-- C10: when a DELETE handler responds 404, no delete statement has been
executed and the table is unchanged; the mutating delete runs only after
the existence select returns a non-empty result. On the code the existence
select raises NameError on every request (db.py:73), so the handlers never
respond 404 (or at all). The intended handlers realize the claim: in the
404 case the executed statements are exactly the existence SELECT and the
state is returned unchanged, and the DELETE is executed exactly when the
existence select is non-empty. -/
theorem C10_delete_checks_existence :
    (∀ (st : List KV) (sid : Int),
        delete_student st sid = Except.error (PyError.nameError "rows"))
  ∧ (∀ (st : List KV) (eid : Int),
        delete_employee st eid = Except.error (PyError.nameError "rows"))
  ∧ (∀ (st : List KV) (sid : Int),
        (delete_student_intended st sid).1.status = 404 →
          (delete_student_intended st sid).2.1 = st
        ∧ (delete_student_intended st sid).2.2
            = [build_select_query_intended "student" [] [("student_id", Value.vInt sid)]])
  ∧ (∀ (st : List KV) (eid : Int),
        (delete_employee_intended st eid).1.status = 404 →
          (delete_employee_intended st eid).2.1 = st
        ∧ (delete_employee_intended st eid).2.2
            = [build_select_query_intended "employee" [] [("employee_id", Value.vInt eid)]])
  ∧ (∀ (st : List KV) (sid : Int),
        DB.select_intended st [] [("student_id", Value.vInt sid)] ≠ [] →
          (delete_student_intended st sid).2.2
            = [build_select_query_intended "student" [] [("student_id", Value.vInt sid)],
               build_delete_query "student" [("student_id", Value.vInt sid)]])
  ∧ (∀ (st : List KV) (eid : Int),
        DB.select_intended st [] [("employee_id", Value.vInt eid)] ≠ [] →
          (delete_employee_intended st eid).2.2
            = [build_select_query_intended "employee" [] [("employee_id", Value.vInt eid)],
               build_delete_query "employee" [("employee_id", Value.vInt eid)]]) := by
  refine ⟨fun _ _ => rfl, fun _ _ => rfl, ?_, ?_, ?_, ?_⟩
  · intro st sid h
    by_cases hf : DB.select_intended st [] [("student_id", Value.vInt sid)] = []
    · constructor
      · simp [delete_student_intended, hf]
      · simp [delete_student_intended, hf]
    · simp [delete_student_intended, hf] at h
  · intro st eid h
    by_cases hf : DB.select_intended st [] [("employee_id", Value.vInt eid)] = []
    · constructor
      · simp [delete_employee_intended, hf]
      · simp [delete_employee_intended, hf]
    · simp [delete_employee_intended, hf] at h
  · intro st sid h
    simp [delete_student_intended, h]
  · intro st eid h
    simp [delete_employee_intended, h]

/-- C10 witness: the 404 implications discharged on an empty table and the
non-empty implications discharged on a table holding the matching row. -/
theorem C10_delete_checks_existence_witness :
    ((delete_student_intended [] 1).2.1 = []
      ∧ (delete_student_intended [] 1).2.2
          = [build_select_query_intended "student" [] [("student_id", Value.vInt 1)]])
  ∧ ((delete_employee_intended [] 1).2.1 = []
      ∧ (delete_employee_intended [] 1).2.2
          = [build_select_query_intended "employee" [] [("employee_id", Value.vInt 1)]])
  ∧ (delete_student_intended [[("student_id", Value.vInt 1)]] 1).2.2
      = [build_select_query_intended "student" [] [("student_id", Value.vInt 1)],
         build_delete_query "student" [("student_id", Value.vInt 1)]]
  ∧ (delete_employee_intended [[("employee_id", Value.vInt 1)]] 1).2.2
      = [build_select_query_intended "employee" [] [("employee_id", Value.vInt 1)],
         build_delete_query "employee" [("employee_id", Value.vInt 1)]] :=
  ⟨C10_delete_checks_existence.2.2.1 [] 1 rfl,
   C10_delete_checks_existence.2.2.2.1 [] 1 rfl,
   C10_delete_checks_existence.2.2.2.2.1 [[("student_id", Value.vInt 1)]] 1 (by decide),
   C10_delete_checks_existence.2.2.2.2.2 [[("employee_id", Value.vInt 1)]] 1 (by decide)⟩
